import Mathlib

/-!
Shallow embedding of the Berry GPIO/PWM library (Deno/TypeScript).

Sources embedded:
  * `src/utils.ts` — `globalPinLock` / release (sessionStorage registry).
  * `src/unnamed/part_001` — the `Pin` class (connect, write, read,
    asyncDispose) together with `paramaterToSys` / `sysToParameter`.
  * `src/unnamed/part_000` — the `PWM` class (connect, setDutyCycle,
    setPeriod, enable, disable, asyncDispose) and `pwnPaths` /
    `getPinPwmChip` / `pinToChannel`.
  * `src/src/gpio/src/gpio_paths.ts` — `gpioPaths`.

Modelling conventions:
  * JavaScript numbers are modelled as `ℚ` (the claims only involve order
    and field arithmetic on small values, never float rounding).
  * `Deno.writeTextFile` is modelled as an event appended to a trace; the
    n-th write attempt succeeds iff the environment oracle `fsOk n` is
    true (a failed write raises and lands nothing).  The numeric or string
    payload is kept as a `FileContent` instead of its decimal rendering.
  * `Deno.readTextFile` is modelled as a pure lookup in an environment
    map `files : String → String` (read failures are not needed by any
    claim).
  * JavaScript exceptions are `Except Err`; since `sessionStorage` and the
    private fields survive a throw, every operation returns its
    post-state next to the `Except` result.
  * The sessionStorage registry keyed by `pin#<id>` is the `locks` list of
    claimed line ids (both `Pin` and `PWM` call the same `globalPinLock`
    from `utils.ts`, hence a single registry).
  * The TS `PinId` allow-list (`src/src/gpio/src/gpios.ts`) is not among
    the sources; pin ids are modelled as `ℕ`, which is harmless because no
    claim depends on the allow-list.
-/

/-- Errors surfaced by the library, as thrown by the TypeScript source:
`ReferenceError` from `globalPinLock`, `RangeError` from `setDutyCycle`,
the `Error` thrown by `Pin.read` in OUT mode, `TypeError` from
`sysToParameter`, and a rejected file write. -/
inductive Err where
  | alreadyClaimed (id : ℕ)
  | outOfRange (q : ℚ)
  | invalidOperation
  | typeError (s : String)
  | ioFailure
deriving DecidableEq, Repr

/-- Payload of a `Deno.writeTextFile` call: the source converts numbers with
`toString`, kept here as the number itself. -/
inductive FileContent where
  | str (s : String)
  | num (q : ℚ)
deriving DecidableEq, Repr

/-- Observable events of a run: lock registry updates and file writes that
actually landed. -/
inductive Event where
  | lockAcquire (id : ℕ)
  | lockRelease (id : ℕ)
  | fileWrite (path : String) (content : FileContent)
deriving DecidableEq, Repr

/-- Global environment: the process-wide lock registry (sessionStorage in
the source), the trace of landed events, the write-failure oracle with the
count of write attempts made so far, and the contents backing file reads. -/
structure Sys where
  locks : List ℕ
  trace : List Event
  fsOk : ℕ → Bool
  writeAttempts : ℕ
  files : String → String

/-- A fresh environment whose writes all succeed and whose files are empty. -/
def sysInit : Sys :=
  { locks := [], trace := [], fsOk := fun _ => true, writeAttempts := 0
    files := fun _ => "" }

/-- A fresh environment in which every write attempt fails. -/
def sysFail : Sys :=
  { locks := [], trace := [], fsOk := fun _ => false, writeAttempts := 0
    files := fun _ => "" }

/-- `Deno.writeTextFile(path, content)`: the attempt either lands as a
trace event or rejects, according to the oracle at the current attempt
index. -/
def writeTextFile (path : String) (content : FileContent) (s : Sys) :
    Except Err Unit × Sys :=
  if s.fsOk s.writeAttempts then
    (.ok (), { s with trace := s.trace ++ [Event.fileWrite path content]
                      writeAttempts := s.writeAttempts + 1 })
  else
    (.error .ioFailure, { s with writeAttempts := s.writeAttempts + 1 })

/-- `globalPinLock(id)` from `src/utils.ts`: throws a `ReferenceError`
(`pin #id is already used`) when the key is present, otherwise records the
claim and returns the lock. -/
def globalPinLock (id : ℕ) (s : Sys) : Except Err Unit × Sys :=
  if id ∈ s.locks then (.error (.alreadyClaimed id), s)
  else (.ok (), { s with locks := id :: s.locks
                         trace := s.trace ++ [Event.lockAcquire id] })

/-- `lock.release()` from `src/utils.ts`: `sessionStorage.removeItem(key)`. -/
def lockRelease (id : ℕ) (s : Sys) : Sys :=
  { s with locks := s.locks.erase id
           trace := s.trace ++ [Event.lockRelease id] }

/-! ### GPIO paths (`src/src/gpio/src/gpio_paths.ts`) -/

def gpioPaths_export : String := "/sys/class/gpio/export"

def gpioPaths_unexport : String := "/sys/class/gpio/unexport"

def gpioPaths_pin_direction (id : ℕ) : String :=
  "/sys/class/gpio/gpio" ++ toString id ++ "/direction"

def gpioPaths_pin_value (id : ℕ) : String :=
  "/sys/class/gpio/gpio" ++ toString id ++ "/value"

/-! ### Digital pin (`src/unnamed/part_001`) -/

inductive PinDirection where
  | IN | OUT | INOUT
deriving DecidableEq, Repr

inductive PinValue where
  | HIGH | LOW
deriving DecidableEq, Repr

inductive PinEdge where
  | NONE | RISING | FALLING | BOTH
deriving DecidableEq, Repr

/-- The union type accepted by `paramaterToSys` and produced by
`sysToParameter` (the source passes the `Pin.Direction` / `Pin.Value` /
`Pin.Edge` symbols). -/
inductive PinParameter where
  | dir (d : PinDirection)
  | val (v : PinValue)
  | edge (e : PinEdge)
deriving DecidableEq, Repr

/-- `paramaterToSys` (sic) of `src/unnamed/part_001`: total on the three
symbol families. -/
def paramaterToSys : PinParameter → String
  | .dir .IN => "in"
  | .dir .OUT => "out"
  | .dir .INOUT => "inout"
  | .val .HIGH => "1"
  | .val .LOW => "0"
  | .edge .BOTH => "both"
  | .edge .FALLING => "falling"
  | .edge .NONE => "none"
  | .edge .RISING => "rising"

/-- `sysToParameter` of `src/unnamed/part_001`: maps the direction strings,
`"1"`/`"0"`, and the edge strings to their symbols and throws a
`TypeError` on anything else. -/
def sysToParameter (parameter : String) : Except Err PinParameter :=
  if parameter = "in" then .ok (.dir .IN)
  else if parameter = "out" then .ok (.dir .OUT)
  else if parameter = "inout" then .ok (.dir .INOUT)
  else if parameter = "1" then .ok (.val .HIGH)
  else if parameter = "0" then .ok (.val .LOW)
  else if parameter = "both" then .ok (.edge .BOTH)
  else if parameter = "falling" then .ok (.edge .FALLING)
  else if parameter = "none" then .ok (.edge .NONE)
  else if parameter = "rising" then .ok (.edge .RISING)
  else .error (.typeError parameter)

/-- The private fields of a connected `Pin` handle (`#id`, `#direction`);
the lock it owns lives in `Sys.locks`. -/
structure Pin where
  id : ℕ
  direction : PinDirection
deriving DecidableEq, Repr

/-- `Pin.connect`: `globalPinLock(id)`, then `#openPin` (write `id` to the
export path), then `#setDirection` (write the direction string).  The
source has no try/finally: a failing write leaves the lock claimed. -/
def Pin.connect (id : ℕ) (direction : PinDirection) (s : Sys) :
    Except Err Pin × Sys :=
  match globalPinLock id s with
  | (.error e, s1) => (.error e, s1)
  | (.ok _, s1) =>
    match writeTextFile gpioPaths_export (.num (id : ℚ)) s1 with
    | (.error e, s2) => (.error e, s2)
    | (.ok _, s2) =>
      match writeTextFile (gpioPaths_pin_direction id)
          (.str (paramaterToSys (.dir direction))) s2 with
      | (.error e, s3) => (.error e, s3)
      | (.ok _, s3) => (.ok { id := id, direction := direction }, s3)

/-- `Pin.write(value)`: writes `paramaterToSys(value)` to the value
attribute; the source performs no runtime direction check (the OUT
restriction exists only in the TypeScript generic signature). -/
def Pin.write (p : Pin) (v : PinValue) (s : Sys) : Except Err Unit × Sys :=
  writeTextFile (gpioPaths_pin_value p.id) (.str (paramaterToSys (.val v))) s

/-- `Pin.read()`: throws when `#direction` is OUT, otherwise reads the
value attribute and pipes the content through `sysToParameter`. -/
def Pin.read (p : Pin) (s : Sys) : Except Err PinParameter × Sys :=
  if p.direction = PinDirection.OUT then (.error .invalidOperation, s)
  else (sysToParameter (s.files (gpioPaths_pin_value p.id)), s)

/-- `Pin[Symbol.asyncDispose]`: `this.#lock.release()` first, then write
`id` to `gpioPaths.unexport`. -/
def Pin.dispose (p : Pin) (s : Sys) : Except Err Unit × Sys :=
  writeTextFile gpioPaths_unexport (.num (p.id : ℚ)) (lockRelease p.id s)

/-! ### PWM (`src/unnamed/part_000`) -/

/-- The `PwmId` union type: ids appearing in the frozen `pwmId` table. -/
inductive PwmId where
  | p12 | p13 | p18 | p19
deriving DecidableEq, Repr

def PwmId.toNat : PwmId → ℕ
  | .p12 => 12
  | .p13 => 13
  | .p18 => 18
  | .p19 => 19

/-- The frozen `pwmId` table, chip `0` entry. -/
def pwmId0 : List ℕ := [12, 18]

/-- The frozen `pwmId` table, chip `1` entry. -/
def pwmId1 : List ℕ := [13, 19]

/-- `getPinPwmChip(id)`: the key of the first table entry whose list
contains `id` (entries iterate in the order `"0"`, `"1"`); the final
branch is unreachable because `PwmId` covers exactly the table ids. -/
def getPinPwmChip (id : PwmId) : String :=
  if pwmId0.contains id.toNat then "0"
  else if pwmId1.contains id.toNat then "1"
  else ""

/-- `pinToChannel(id)`: `0` for ids 12 and 18, `1` otherwise. -/
def pinToChannel (id : PwmId) : ℕ :=
  if id.toNat = 12 ∨ id.toNat = 18 then 0 else 1

/-- `pwnPaths.pwm(id).dutyCycle` — note the source's `duty_clycle` typo. -/
def pwnPaths_dutyCycle (id : PwmId) : String :=
  "/sys/class/pwm/pwmchip" ++ getPinPwmChip id ++ "/pwm"
    ++ toString (pinToChannel id) ++ "/duty_clycle"

def pwnPaths_period (id : PwmId) : String :=
  "/sys/class/pwm/pwmchip" ++ getPinPwmChip id ++ "/pwm"
    ++ toString (pinToChannel id) ++ "/period"

def pwnPaths_enable (id : PwmId) : String :=
  "/sys/class/pwm/pwmchip" ++ getPinPwmChip id ++ "/pwm"
    ++ toString (pinToChannel id) ++ "/enable"

def pwnPaths_export (id : PwmId) : String :=
  "/sys/class/pwm/pwmchip" ++ getPinPwmChip id ++ "/export"

def pwnPaths_unexport (id : PwmId) : String :=
  "/sys/class/pwm/pwmchip" ++ getPinPwmChip id ++ "/unexport"

/-- The private fields of a `PWM` handle (`#id`, `#period`, `#dutyCycle`,
`#enabled`); its lock lives in `Sys.locks`. -/
structure PWM where
  id : PwmId
  period : ℚ
  dutyCycle : ℚ
  enabled : Bool
deriving DecidableEq, Repr

/-- The handle returned by `PWM.connect`: fields default to `0`/`false`. -/
def freshPWM (id : PwmId) : PWM :=
  { id := id, period := 0, dutyCycle := 0, enabled := false }

/-- `PWM.connect({id})`: `globalPinLock(id)`, write the channel index to
the chip's export path, return the fresh handle. -/
def PWM.connect (id : PwmId) (s : Sys) : Except Err PWM × Sys :=
  match globalPinLock id.toNat s with
  | (.error e, s1) => (.error e, s1)
  | (.ok _, s1) =>
    match writeTextFile (pwnPaths_export id) (.num (pinToChannel id : ℚ)) s1 with
    | (.error e, s2) => (.error e, s2)
    | (.ok _, s2) => (.ok (freshPWM id), s2)

/-- `PWM.setDutyCycle(percentage)`: `RangeError` outside `[0,1]`; otherwise
`#dutyCycle = percentage` and then write `percentage * #period` (no
rounding in the source) to the duty-cycle attribute. -/
def PWM.setDutyCycle (pwm : PWM) (percentage : ℚ) (s : Sys) :
    Except Err Unit × PWM × Sys :=
  if percentage < 0 ∨ 1 < percentage then (.error (.outOfRange percentage), pwm, s)
  else
    match writeTextFile (pwnPaths_dutyCycle pwm.id)
        (.num (percentage * pwm.period)) s with
    | (.ok _, s1) => (.ok (), { pwm with dutyCycle := percentage }, s1)
    | (.error e, s1) => (.error e, { pwm with dutyCycle := percentage }, s1)

/-- Tail of `PWM.setPeriod` after the optional leading duty-cycle
re-application: `#period = duration`, awaited period write, then the final
awaited `setDutyCycle(#dutyCycle)`. -/
def PWM.setPeriodRest (pwm : PWM) (duration : ℚ) (s : Sys) :
    Except Err Unit × PWM × Sys :=
  match writeTextFile (pwnPaths_period pwm.id) (.num duration) s with
  | (.error e, s1) => (.error e, { pwm with period := duration }, s1)
  | (.ok _, s1) =>
    PWM.setDutyCycle { pwm with period := duration } pwm.dutyCycle s1

/-- `PWM.setPeriod(duration)`: when `duration > #period` the source first
calls `this.setDutyCycle(this.#dutyCycle)` WITHOUT awaiting it — its
synchronous `RangeError` would propagate, while a rejected write is
dropped — then stores and writes the period and re-applies the duty
cycle (this one awaited).  No negativity check exists in the source. -/
def PWM.setPeriod (pwm : PWM) (duration : ℚ) (s : Sys) :
    Except Err Unit × PWM × Sys :=
  if pwm.period < duration then
    match PWM.setDutyCycle pwm pwm.dutyCycle s with
    | (.error (.outOfRange q), pwm1, s1) => (.error (.outOfRange q), pwm1, s1)
    | (_, pwm1, s1) => PWM.setPeriodRest pwm1 duration s1
  else PWM.setPeriodRest pwm duration s

/-- `PWM.enable()`: `#enabled = true`, write `"1"` to the enable path. -/
def PWM.enable (pwm : PWM) (s : Sys) : Except Err Unit × PWM × Sys :=
  match writeTextFile (pwnPaths_enable pwm.id) (.str "1") s with
  | (r, s1) => (r, { pwm with enabled := true }, s1)

/-- `PWM.disable()`: `#enabled = false`, write `"0"` to the enable path. -/
def PWM.disable (pwm : PWM) (s : Sys) : Except Err Unit × PWM × Sys :=
  match writeTextFile (pwnPaths_enable pwm.id) (.str "0") s with
  | (r, s1) => (r, { pwm with enabled := false }, s1)

/-- `PWM[Symbol.asyncDispose]`: `this.#lock.release()` first, then write
`this.#id` to `gpioPaths.unexport` — the GPIO unexport path with the raw
id, exactly as the source does. -/
def PWM.dispose (pwm : PWM) (s : Sys) : Except Err Unit × Sys :=
  writeTextFile gpioPaths_unexport (.num (pwm.id.toNat : ℚ))
    (lockRelease pwm.id.toNat s)

/-! ### Trace machinery for the PWM temporal claim -/

/-- One user-level operation of the PWM temporal claim. -/
inductive PwmOp where
  | setPeriod (d : ℚ)
  | setDutyCycle (f : ℚ)
deriving DecidableEq, Repr

/-- Run a sequence of PWM operations, stopping at the first failure. -/
def runPwmOps (pwm : PWM) (s : Sys) : List PwmOp → Except Err Unit × PWM × Sys
  | [] => (.ok (), pwm, s)
  | PwmOp.setPeriod d :: rest =>
    match PWM.setPeriod pwm d s with
    | (.ok _, pwm1, s1) => runPwmOps pwm1 s1 rest
    | (.error e, pwm1, s1) => (.error e, pwm1, s1)
  | PwmOp.setDutyCycle f :: rest =>
    match PWM.setDutyCycle pwm f s with
    | (.ok _, pwm1, s1) => runPwmOps pwm1 s1 rest
    | (.error e, pwm1, s1) => (.error e, pwm1, s1)

/-- Every numeric write to `dutyPath` in the trace is at most the value of
the latest preceding numeric write to `periodPath` (`cur` before any). -/
def dutyBounded (dutyPath periodPath : String) :
    List Event → ℚ → Bool
  | [], _ => true
  | Event.fileWrite p (.num v) :: rest, cur =>
    (if p = dutyPath then decide (v ≤ cur) else true)
      && dutyBounded dutyPath periodPath rest (if p = periodPath then v else cur)
  | _ :: rest, cur => dutyBounded dutyPath periodPath rest cur

/-- Value of the latest numeric write to `periodPath` in the trace,
`cur` when there is none. -/
def lastPeriod (periodPath : String) : List Event → ℚ → ℚ
  | [], cur => cur
  | Event.fileWrite p (.num v) :: rest, cur =>
    lastPeriod periodPath rest (if p = periodPath then v else cur)
  | _ :: rest, cur => lastPeriod periodPath rest cur


deriving instance DecidableEq for Except

/-- Helper: a write attempt whose oracle entry is true lands as a trace
event and succeeds. -/
theorem writeTextFile_ok (path : String) (c : FileContent) (s : Sys)
    (h : s.fsOk s.writeAttempts = true) :
    writeTextFile path c s =
      (.ok (), { s with trace := s.trace ++ [Event.fileWrite path c]
                        writeAttempts := s.writeAttempts + 1 }) := by
  simp [writeTextFile, h]

/-- Helper: a write attempt whose oracle entry is false rejects and lands
nothing. -/
theorem writeTextFile_fail (path : String) (c : FileContent) (s : Sys)
    (h : s.fsOk s.writeAttempts = false) :
    writeTextFile path c s =
      (.error .ioFailure, { s with writeAttempts := s.writeAttempts + 1 }) := by
  simp [writeTextFile, h]

/-- Claim C1: the spec requires that a `connect` whose export or direction
write fails releases the lock before surfacing the failure.  The source
has no try/finally, so the claim describes the intent and the code leaks
the claim: with every write failing, `Pin.connect 1 IN` surfaces the write
failure while id 1 is still registered and no release was ever traced;
the same happens when only the direction write (the second attempt)
fails. -/
theorem claim_C1 :
    (Pin.connect 1 PinDirection.IN sysFail).1 = Except.error Err.ioFailure ∧
    1 ∈ (Pin.connect 1 PinDirection.IN sysFail).2.locks ∧
    (Pin.connect 1 PinDirection.IN sysFail).2.trace = [Event.lockAcquire 1] ∧
    (Pin.connect 1 PinDirection.IN { sysInit with fsOk := fun n => n == 0 }).1
      = Except.error Err.ioFailure ∧
    1 ∈ (Pin.connect 1 PinDirection.IN { sysInit with fsOk := fun n => n == 0 }).2.locks := by
  decide

/-- Claim C4: the spec says PWM disposal writes the channel index to the
owning chip's unexport path.  The source instead writes the raw id to the
GPIO unexport path: disposing channel 12 releases the lock but traces a
write of `12` to `/sys/class/gpio/unexport`, not of channel `0` to
`/sys/class/pwm/pwmchip0/unexport`. -/
theorem claim_C4 :
    (PWM.dispose (freshPWM PwmId.p12) { sysInit with locks := [12] }).2.locks = [] ∧
    (PWM.dispose (freshPWM PwmId.p12) { sysInit with locks := [12] }).2.trace
      = [Event.lockRelease 12,
         Event.fileWrite gpioPaths_unexport (FileContent.num 12)] ∧
    gpioPaths_unexport = "/sys/class/gpio/unexport" ∧
    pwnPaths_unexport PwmId.p12 = "/sys/class/pwm/pwmchip0/unexport" ∧
    pinToChannel PwmId.p12 = 0 ∧
    gpioPaths_unexport ≠ pwnPaths_unexport PwmId.p12 := by
  decide

/-- Claim C9: the chip/channel table derivation is as claimed (id 12 →
chip 0 channel 0, id 19 → chip 1 channel 1) but the duty-cycle attribute
path the resolver actually produces ends in the misspelt `duty_clycle`,
not the kernel's `duty_cycle`. -/
theorem claim_C9 :
    getPinPwmChip PwmId.p12 = "0" ∧ pinToChannel PwmId.p12 = 0 ∧
    getPinPwmChip PwmId.p19 = "1" ∧ pinToChannel PwmId.p19 = 1 ∧
    pwnPaths_dutyCycle PwmId.p12 = "/sys/class/pwm/pwmchip0/pwm0/duty_clycle" ∧
    pwnPaths_dutyCycle PwmId.p19 = "/sys/class/pwm/pwmchip1/pwm1/duty_clycle" ∧
    pwnPaths_dutyCycle PwmId.p12 ≠ "/sys/class/pwm/pwmchip0/pwm0/duty_cycle" ∧
    pwnPaths_dutyCycle PwmId.p19 ≠ "/sys/class/pwm/pwmchip1/pwm1/duty_cycle" := by
  decide

/-- Claim C10: `Pin.write` performs the value-attribute write for every
direction — there is no runtime direction check: the result and the write
landed are independent of the handle's direction field. -/
theorem claim_C10 (p : Pin) (v : PinValue) (s : Sys)
    (hfs : s.fsOk s.writeAttempts = true) :
    Pin.write p v s = (Except.ok (),
      { s with trace := s.trace ++ [Event.fileWrite (gpioPaths_pin_value p.id)
                  (FileContent.str (paramaterToSys (PinParameter.val v)))]
               writeAttempts := s.writeAttempts + 1 }) ∧
    ∀ d : PinDirection, Pin.write { p with direction := d } v s = Pin.write p v s := by
  exact ⟨writeTextFile_ok _ _ s hfs, fun d => rfl⟩

/-- Witness for C10: a pin whose direction is OUT still writes `"1"`. -/
theorem claim_C10_witness :
    Pin.write { id := 1, direction := PinDirection.OUT } PinValue.HIGH sysInit
      = (Except.ok (),
        { sysInit with trace := sysInit.trace
            ++ [Event.fileWrite (gpioPaths_pin_value 1)
                  (FileContent.str (paramaterToSys (PinParameter.val PinValue.HIGH)))]
                       writeAttempts := sysInit.writeAttempts + 1 }) :=
  (claim_C10 { id := 1, direction := PinDirection.OUT } PinValue.HIGH sysInit rfl).1

/-- Counterexample to claim C5 as stated: with period 15 ns,
`setDutyCycle(0.5)` writes exactly `0.5 × 15 = 7.5` to the duty-cycle
attribute, which differs from the claimed `round(0.5 × 15) = 8`. -/
theorem claim_C5_counterexample :
    (PWM.setDutyCycle { id := PwmId.p12, period := 15, dutyCycle := 0, enabled := false }
        (1/2) sysInit).2.2.trace
      = [Event.fileWrite (pwnPaths_dutyCycle PwmId.p12) (FileContent.num (15/2))] ∧
    ((15 : ℚ)/2) ≠ ((round ((1/2 : ℚ) * 15) : ℤ) : ℚ) := by
  constructor
  · norm_num [PWM.setDutyCycle, writeTextFile, sysInit]
  · norm_num [round_eq]

/-- Claim C5 amended: `setDutyCycle(f)` fails with `OutOfRange` and issues
no hardware write unless `0 ≤ f ≤ 1`; in range it writes `f × period`
itself (the source performs no rounding) and stores the fraction `f` as
the durable field. -/
theorem claim_C5 (f : ℚ) (pwm : PWM) (s : Sys) :
    (f < 0 ∨ 1 < f →
      PWM.setDutyCycle pwm f s = (Except.error (Err.outOfRange f), pwm, s)) ∧
    (0 ≤ f → f ≤ 1 → s.fsOk s.writeAttempts = true →
      (PWM.setDutyCycle pwm f s).1 = Except.ok () ∧
      (PWM.setDutyCycle pwm f s).2.1.dutyCycle = f ∧
      (PWM.setDutyCycle pwm f s).2.2.trace
        = s.trace ++ [Event.fileWrite (pwnPaths_dutyCycle pwm.id)
            (FileContent.num (f * pwm.period))]) := by
  constructor
  · intro h
    simp [PWM.setDutyCycle, h]
  · intro h0 h1 hfs
    have hcond : ¬ (f < 0 ∨ 1 < f) := by
      push_neg
      exact ⟨h0, h1⟩
    simp [PWM.setDutyCycle, hcond, writeTextFile_ok _ _ s hfs]

/-- Witness for C5: `setDutyCycle 2` rejects without touching the
environment, and `setDutyCycle 1` stores the fraction 1. -/
theorem claim_C5_witness :
    PWM.setDutyCycle (freshPWM PwmId.p12) 2 sysInit
      = (Except.error (Err.outOfRange 2), freshPWM PwmId.p12, sysInit) ∧
    (PWM.setDutyCycle (freshPWM PwmId.p12) 1 sysInit).2.1.dutyCycle = 1 :=
  ⟨(claim_C5 2 (freshPWM PwmId.p12) sysInit).1 (by norm_num),
   ((claim_C5 1 (freshPWM PwmId.p12) sysInit).2 (by norm_num) (by norm_num) rfl).2.1⟩

/-- Claim C8: both disposals release the lock unconditionally and ahead of
the unexport write: after `dispose` the id is no longer claimed whatever
the write oracle says, and the trace shows the release strictly before
the unexport write (which is absent exactly when the write failed). -/
theorem claim_C8 (p : Pin) (q : PWM) (s t : Sys)
    (hp : s.locks.count p.id ≤ 1) (hq : t.locks.count q.id.toNat ≤ 1) :
    (p.id ∉ (Pin.dispose p s).2.locks ∧
      (Pin.dispose p s).2.trace = s.trace ++ Event.lockRelease p.id ::
        (if s.fsOk s.writeAttempts = true
          then [Event.fileWrite gpioPaths_unexport (FileContent.num (p.id : ℚ))]
          else [])) ∧
    (q.id.toNat ∉ (PWM.dispose q t).2.locks ∧
      (PWM.dispose q t).2.trace = t.trace ++ Event.lockRelease q.id.toNat ::
        (if t.fsOk t.writeAttempts = true
          then [Event.fileWrite gpioPaths_unexport (FileContent.num (q.id.toNat : ℚ))]
          else [])) := by
  have key : ∀ (id : ℕ) (u : Sys), u.locks.count id ≤ 1 →
      id ∉ (writeTextFile gpioPaths_unexport (FileContent.num (id : ℚ))
              (lockRelease id u)).2.locks ∧
      (writeTextFile gpioPaths_unexport (FileContent.num (id : ℚ))
          (lockRelease id u)).2.trace = u.trace ++ Event.lockRelease id ::
        (if u.fsOk u.writeAttempts = true
          then [Event.fileWrite gpioPaths_unexport (FileContent.num (id : ℚ))]
          else []) := by
    intro id u hu
    have hcount : (u.locks.erase id).count id = 0 := by
      have := List.count_erase_self id u.locks
      omega
    have hmem : id ∉ u.locks.erase id := by
      rw [← List.count_eq_zero]
      exact hcount
    cases hfs : u.fsOk u.writeAttempts with
    | true =>
      rw [writeTextFile_ok _ _ _ (by simpa [lockRelease] using hfs)]
      simp [lockRelease, hmem, hfs]
    | false =>
      rw [writeTextFile_fail _ _ _ (by simpa [lockRelease] using hfs)]
      simp [lockRelease, hmem, hfs]
  exact ⟨key p.id s hp, key q.id.toNat t hq⟩

/-- Witness for C8: disposing under an always-failing filesystem still
releases both claims. -/
theorem claim_C8_witness :
    1 ∉ (Pin.dispose { id := 1, direction := PinDirection.IN }
          { sysFail with locks := [1] }).2.locks ∧
    12 ∉ (PWM.dispose (freshPWM PwmId.p12) { sysFail with locks := [12] }).2.locks :=
  ⟨(claim_C8 { id := 1, direction := PinDirection.IN } (freshPWM PwmId.p12)
      { sysFail with locks := [1] } { sysFail with locks := [12] }
      (by decide) (by decide)).1.1,
   (claim_C8 { id := 1, direction := PinDirection.IN } (freshPWM PwmId.p12)
      { sysFail with locks := [1] } { sysFail with locks := [12] }
      (by decide) (by decide)).2.1⟩

/-- Claim C2: while a successfully connected handle on `x` is alive, a
second `connect` on `x` fails with `AlreadyClaimed`; after the handle is
disposed, `connect(x)` succeeds again. -/
theorem claim_C2 (x : ℕ) (d d1 d2 : PinDirection) (s : Sys)
    (hfs : ∀ n, s.fsOk n = true) (p : Pin)
    (h : (Pin.connect x d s).1 = Except.ok p) :
    (Pin.connect x d1 (Pin.connect x d s).2).1 = Except.error (Err.alreadyClaimed x) ∧
    (Pin.connect x d2 (Pin.dispose p (Pin.connect x d s).2).2).1
      = Except.ok { id := x, direction := d2 } := by
  by_cases hx : x ∈ s.locks
  · simp [Pin.connect, globalPinLock, hx] at h
  · have hid : p = { id := x, direction := d } := by
      simp [Pin.connect, globalPinLock, writeTextFile, hx, hfs] at h
      exact h.symm
    subst hid
    constructor
    · simp [Pin.connect, globalPinLock, writeTextFile, hx, hfs]
    · simp [Pin.connect, Pin.dispose, globalPinLock, lockRelease, writeTextFile, hx, hfs,
        List.erase_cons_head]

/-- Witness for C2: connect pin 1, connect again (AlreadyClaimed), dispose,
connect once more (succeeds). -/
theorem claim_C2_witness :
    (Pin.connect 1 PinDirection.IN
        (Pin.connect 1 PinDirection.INOUT sysInit).2).1
      = Except.error (Err.alreadyClaimed 1) ∧
    (Pin.connect 1 PinDirection.OUT
        (Pin.dispose { id := 1, direction := PinDirection.INOUT }
          (Pin.connect 1 PinDirection.INOUT sysInit).2).2).1
      = Except.ok { id := 1, direction := PinDirection.OUT } :=
  claim_C2 1 PinDirection.INOUT PinDirection.IN PinDirection.OUT sysInit
    (fun _ => rfl) { id := 1, direction := PinDirection.INOUT } (by decide)

/-- Counterexample to claim C6 as stated: `setPeriod(-1)` from the initial
state does not fail — it stores and writes `-1` and then re-applies the
duty cycle. -/
theorem claim_C6_counterexample :
    (PWM.setPeriod (freshPWM PwmId.p12) (-1) sysInit).1 = Except.ok () ∧
    (PWM.setPeriod (freshPWM PwmId.p12) (-1) sysInit).2.2.trace
      = [Event.fileWrite (pwnPaths_period PwmId.p12) (FileContent.num (-1)),
         Event.fileWrite (pwnPaths_dutyCycle PwmId.p12) (FileContent.num 0)] := by
  norm_num [PWM.setPeriod, PWM.setPeriodRest, PWM.setDutyCycle, writeTextFile, freshPWM, sysInit]

/-- Claim C6 amended: `setPeriod` performs no negativity check — for every
negative duration it succeeds (given an in-range stored duty cycle and
healthy writes), stores the negative period, and writes it to the period
attribute. -/
theorem claim_C6 (pwm : PWM) (d : ℚ) (s : Sys)
    (hd : d < 0) (hdc0 : 0 ≤ pwm.dutyCycle) (hdc1 : pwm.dutyCycle ≤ 1)
    (hfs : ∀ n, s.fsOk n = true) :
    (PWM.setPeriod pwm d s).1 = Except.ok () ∧
    (PWM.setPeriod pwm d s).2.1.period = d ∧
    Event.fileWrite (pwnPaths_period pwm.id) (FileContent.num d)
      ∈ (PWM.setPeriod pwm d s).2.2.trace := by
  have hcond : ¬ (pwm.dutyCycle < 0 ∨ 1 < pwm.dutyCycle) := by
    push_neg
    exact ⟨hdc0, hdc1⟩
  by_cases hlt : pwm.period < d
  · simp [PWM.setPeriod, hlt, PWM.setPeriodRest, PWM.setDutyCycle, hcond, writeTextFile, hfs]
  · simp [PWM.setPeriod, hlt, PWM.setPeriodRest, PWM.setDutyCycle, hcond, writeTextFile, hfs]

/-- Witness for C6: `setPeriod(-1)` on a fresh channel stores period `-1`
and the period write of `-1` lands. -/
theorem claim_C6_witness :
    (PWM.setPeriod (freshPWM PwmId.p12) (-1) sysInit).2.1.period = -1 ∧
    Event.fileWrite (pwnPaths_period PwmId.p12) (FileContent.num (-1))
      ∈ (PWM.setPeriod (freshPWM PwmId.p12) (-1) sysInit).2.2.trace :=
  ⟨(claim_C6 (freshPWM PwmId.p12) (-1) sysInit (by norm_num) (by norm_num [freshPWM])
      (by norm_num [freshPWM]) (fun _ => rfl)).2.1,
   (claim_C6 (freshPWM PwmId.p12) (-1) sysInit (by norm_num) (by norm_num [freshPWM])
      (by norm_num [freshPWM]) (fun _ => rfl)).2.2⟩

/-- Counterexample to claim C7 as stated: with the value file holding
`"inout"`, `read` on an IN pin returns the `INOUT` direction symbol, not
`LOW`; with the file holding `"junk"` it throws a `TypeError` instead of
returning `LOW`. -/
theorem claim_C7_counterexample :
    (Pin.read { id := 1, direction := PinDirection.IN }
        { sysInit with files := fun _ => "inout" }).1
      = Except.ok (PinParameter.dir PinDirection.INOUT) ∧
    PinParameter.dir PinDirection.INOUT ≠ PinParameter.val PinValue.LOW ∧
    (Pin.read { id := 1, direction := PinDirection.IN }
        { sysInit with files := fun _ => "junk" }).1
      = Except.error (Err.typeError "junk") := by
  decide

/-- Claim C7 amended: `read` fails with `InvalidOperation` when direction
is OUT; otherwise it pipes the value-file content through
`sysToParameter`, which maps `"1"` to HIGH and `"0"` to LOW but sends the
direction/edge strings to their own symbols and fails with a `TypeError`
on any unrecognised content. -/
theorem claim_C7 (p : Pin) (s : Sys) :
    (p.direction = PinDirection.OUT →
      Pin.read p s = (Except.error Err.invalidOperation, s)) ∧
    (p.direction ≠ PinDirection.OUT →
      Pin.read p s = (sysToParameter (s.files (gpioPaths_pin_value p.id)), s) ∧
      sysToParameter "1" = Except.ok (PinParameter.val PinValue.HIGH) ∧
      sysToParameter "0" = Except.ok (PinParameter.val PinValue.LOW) ∧
      ∀ c : String,
        c ∉ (["in", "out", "inout", "1", "0", "both", "falling", "none", "rising"] : List String) →
        sysToParameter c = Except.error (Err.typeError c)) := by
  refine ⟨fun h => by simp [Pin.read, h], fun h => ⟨by simp [Pin.read, h], by decide, by decide, ?_⟩⟩
  intro c hc
  simp only [List.mem_cons, List.not_mem_nil, or_false, not_or] at hc
  obtain ⟨h1, h2, h3, h4, h5, h6, h7, h8, h9⟩ := hc
  simp [sysToParameter, h1, h2, h3, h4, h5, h6, h7, h8, h9]

/-- Witness for C7: an OUT pin rejects `read`; an IN pin reads through
`sysToParameter`. -/
theorem claim_C7_witness :
    Pin.read { id := 1, direction := PinDirection.OUT } sysInit
      = (Except.error Err.invalidOperation, sysInit) ∧
    Pin.read { id := 1, direction := PinDirection.IN } sysInit
      = (sysToParameter (sysInit.files (gpioPaths_pin_value 1)), sysInit) :=
  ⟨(claim_C7 { id := 1, direction := PinDirection.OUT } sysInit).1 rfl,
   ((claim_C7 { id := 1, direction := PinDirection.IN } sysInit).2 (by decide)).1⟩

/-- Helper: boundedness of a concatenated trace splits at the join, the
second part starting from the first part's last written period. -/
theorem dutyBounded_append (dp pp : String) (t1 t2 : List Event) (cur : ℚ) :
    dutyBounded dp pp (t1 ++ t2) cur
      = (dutyBounded dp pp t1 cur && dutyBounded dp pp t2 (lastPeriod pp t1 cur)) := by
  induction t1 generalizing cur with
  | nil => simp [dutyBounded, lastPeriod]
  | cons e rest ih =>
    cases e with
    | lockAcquire i => simpa [dutyBounded, lastPeriod] using ih cur
    | lockRelease i => simpa [dutyBounded, lastPeriod] using ih cur
    | fileWrite p c =>
      cases c with
      | str w => simpa [dutyBounded, lastPeriod] using ih cur
      | num v => simp [dutyBounded, lastPeriod, ih, Bool.and_assoc]

/-- Helper: the last written period of a concatenated trace. -/
theorem lastPeriod_append (pp : String) (t1 t2 : List Event) (cur : ℚ) :
    lastPeriod pp (t1 ++ t2) cur = lastPeriod pp t2 (lastPeriod pp t1 cur) := by
  induction t1 generalizing cur with
  | nil => simp [lastPeriod]
  | cons e rest ih =>
    cases e with
    | lockAcquire i => simpa [lastPeriod] using ih cur
    | lockRelease i => simpa [lastPeriod] using ih cur
    | fileWrite p c =>
      cases c with
      | str w => simpa [lastPeriod] using ih cur
      | num v => simp [lastPeriod, ih]

/-- Helper: for every channel the duty-cycle and period attribute paths
differ. -/
theorem pwnPaths_dutyCycle_ne_period (id : PwmId) :
    pwnPaths_dutyCycle id ≠ pwnPaths_period id := by
  cases id <;> decide

/-- Run invariant for the PWM temporal claim: the handle belongs to `id`,
its stored duty-cycle fraction is in `[0,1]`, its stored period is
nonnegative, every duty write traced so far is bounded by the period in
effect when it landed, and the stored period equals the last period
written. -/
def PwmInv (id : PwmId) (pwm : PWM) (s : Sys) : Prop :=
  pwm.id = id ∧ 0 ≤ pwm.dutyCycle ∧ pwm.dutyCycle ≤ 1 ∧ 0 ≤ pwm.period ∧
  dutyBounded (pwnPaths_dutyCycle id) (pwnPaths_period id) s.trace 0 = true ∧
  lastPeriod (pwnPaths_period id) s.trace 0 = pwm.period

/-- Helper: an in-range `setDutyCycle` preserves the run invariant
(whether or not its write lands). -/
theorem setDutyCycle_inv (id : PwmId) (pwm : PWM) (f : ℚ) (s : Sys)
    (hInv : PwmInv id pwm s) (h0 : 0 ≤ f) (h1 : f ≤ 1) :
    PwmInv id (PWM.setDutyCycle pwm f s).2.1 (PWM.setDutyCycle pwm f s).2.2 := by
  obtain ⟨hid, hd0, hd1, hp0, hb, hl⟩ := hInv
  have hcond : ¬ (f < 0 ∨ 1 < f) := by
    push_neg
    exact ⟨h0, h1⟩
  unfold PWM.setDutyCycle
  rw [if_neg hcond]
  subst hid
  cases hfs : s.fsOk s.writeAttempts with
  | false =>
    rw [writeTextFile_fail _ _ _ hfs]
    exact ⟨rfl, h0, h1, hp0, hb, hl⟩
  | true =>
    rw [writeTextFile_ok _ _ _ hfs]
    refine ⟨rfl, h0, h1, hp0, ?_, ?_⟩
    · simp only [dutyBounded_append, hb, hl, Bool.true_and]
      simp [dutyBounded, mul_le_of_le_one_left hp0 h1]
    · simp only [lastPeriod_append, hl]
      simp [lastPeriod, pwnPaths_dutyCycle_ne_period pwm.id]

/-- Helper: the tail of `setPeriod` preserves the run invariant for a
nonnegative duration when it succeeds. -/
theorem setPeriodRest_inv (id : PwmId) (pwm : PWM) (d : ℚ) (s : Sys)
    (hInv : PwmInv id pwm s) (hd : 0 ≤ d)
    (hok : (PWM.setPeriodRest pwm d s).1 = Except.ok ()) :
    PwmInv id (PWM.setPeriodRest pwm d s).2.1 (PWM.setPeriodRest pwm d s).2.2 := by
  obtain ⟨hid, hd0, hd1, hp0, hb, hl⟩ := hInv
  subst hid
  unfold PWM.setPeriodRest at hok ⊢
  cases hfs : s.fsOk s.writeAttempts with
  | false =>
    rw [writeTextFile_fail _ _ _ hfs] at hok
    simp at hok
  | true =>
    rw [writeTextFile_ok _ _ _ hfs] at hok ⊢
    have hInv1 : PwmInv pwm.id { pwm with period := d }
        { s with trace := s.trace
            ++ [Event.fileWrite (pwnPaths_period pwm.id) (FileContent.num d)]
                 writeAttempts := s.writeAttempts + 1 } := by
      refine ⟨rfl, hd0, hd1, hd, ?_, ?_⟩
      · simp only [dutyBounded_append, hb, hl, Bool.true_and]
        simp [dutyBounded, Ne.symm (pwnPaths_dutyCycle_ne_period pwm.id)]
      · simp only [lastPeriod_append, hl]
        simp [lastPeriod]
    exact setDutyCycle_inv pwm.id _ _ _ hInv1 hd0 hd1

/-- Helper: a successful `setPeriod` with nonnegative duration preserves
the run invariant (covering the unawaited leading duty-cycle write of the
increase branch). -/
theorem setPeriod_inv (id : PwmId) (pwm : PWM) (d : ℚ) (s : Sys)
    (hInv : PwmInv id pwm s) (hd : 0 ≤ d)
    (hok : (PWM.setPeriod pwm d s).1 = Except.ok ()) :
    PwmInv id (PWM.setPeriod pwm d s).2.1 (PWM.setPeriod pwm d s).2.2 := by
  by_cases hlt : pwm.period < d
  · have hInner := setDutyCycle_inv id pwm pwm.dutyCycle s hInv hInv.2.1 hInv.2.2.1
    unfold PWM.setPeriod at hok ⊢
    rw [if_pos hlt] at hok ⊢
    rcases hsd : PWM.setDutyCycle pwm pwm.dutyCycle s with ⟨r, pwm1, s1⟩
    rw [hsd] at hok hInner
    cases r with
    | ok u => exact setPeriodRest_inv id pwm1 d s1 hInner hd hok
    | error e =>
      cases e with
      | outOfRange q => simp at hok
      | alreadyClaimed i => exact setPeriodRest_inv id pwm1 d s1 hInner hd hok
      | invalidOperation => exact setPeriodRest_inv id pwm1 d s1 hInner hd hok
      | typeError w => exact setPeriodRest_inv id pwm1 d s1 hInner hd hok
      | ioFailure => exact setPeriodRest_inv id pwm1 d s1 hInner hd hok
  · unfold PWM.setPeriod at hok ⊢
    rw [if_neg hlt] at hok ⊢
    exact setPeriodRest_inv id pwm d s hInv hd hok

/-- Helper: a successful run of operations whose periods are all
nonnegative preserves the run invariant. -/
theorem runPwmOps_inv (id : PwmId) (ops : List PwmOp) (pwm : PWM) (s : Sys)
    (hInv : PwmInv id pwm s)
    (hnn : (ops.all fun op => match op with
            | .setPeriod d => decide (0 ≤ d)
            | .setDutyCycle _ => true) = true)
    (hok : (runPwmOps pwm s ops).1 = Except.ok ()) :
    PwmInv id (runPwmOps pwm s ops).2.1 (runPwmOps pwm s ops).2.2 := by
  induction ops generalizing pwm s with
  | nil => simpa [runPwmOps] using hInv
  | cons op rest ih =>
    rw [List.all_cons, Bool.and_eq_true] at hnn
    obtain ⟨hop, hrest⟩ := hnn
    cases op with
    | setPeriod d =>
      have hd : 0 ≤ d := of_decide_eq_true hop
      unfold runPwmOps at hok ⊢
      rcases hres : PWM.setPeriod pwm d s with ⟨r, pwm1, s1⟩
      rw [hres] at hok
      cases r with
      | error e => simp at hok
      | ok u =>
        cases u
        have hokop : (PWM.setPeriod pwm d s).1 = Except.ok () := by
          rw [hres]
        have hInv1 := setPeriod_inv id pwm d s hInv hd hokop
        rw [hres] at hInv1
        exact ih pwm1 s1 hInv1 hrest hok
    | setDutyCycle f =>
      by_cases hf : f < 0 ∨ 1 < f
      · unfold runPwmOps at hok
        simp [PWM.setDutyCycle, hf] at hok
      · push_neg at hf
        unfold runPwmOps at hok ⊢
        rcases hres : PWM.setDutyCycle pwm f s with ⟨r, pwm1, s1⟩
        rw [hres] at hok
        cases r with
        | error e => simp at hok
        | ok u =>
          have hInv1 := setDutyCycle_inv id pwm f s hInv hf.1 hf.2
          rw [hres] at hInv1
          exact ih pwm1 s1 hInv1 hrest hok

/-- Claim C3 amended: starting from the initial state, for every
successful sequence of `setPeriod`/`setDutyCycle` operations in which all
periods are nonnegative, every duty-cycle value written to hardware is at
most the period value most recently written before it (the initial 0
before any period write).  The nonnegativity hypothesis is forced by the
counterexample: the source accepts negative periods, after which the
re-applied duty write exceeds them. -/
theorem claim_C3 (id : PwmId) (ops : List PwmOp)
    (hnn : (ops.all fun op => match op with
            | .setPeriod d => decide (0 ≤ d)
            | .setDutyCycle _ => true) = true)
    (hok : (runPwmOps (freshPWM id) sysInit ops).1 = Except.ok ()) :
    dutyBounded (pwnPaths_dutyCycle id) (pwnPaths_period id)
      (runPwmOps (freshPWM id) sysInit ops).2.2.trace 0 = true := by
  have h := runPwmOps_inv id ops (freshPWM id) sysInit
    ⟨rfl, le_refl _, by norm_num [freshPWM], le_refl _, rfl, rfl⟩ hnn hok
  exact h.2.2.2.2.1

/-- Counterexample to claim C3 as stated: `setPeriod(-5)` alone is a
successful operation sequence from the initial state, yet its re-applied
duty-cycle write of `0` exceeds the most recently written period `-5`. -/
theorem claim_C3_counterexample :
    (runPwmOps (freshPWM PwmId.p12) sysInit [PwmOp.setPeriod (-5)]).1 = Except.ok () ∧
    dutyBounded (pwnPaths_dutyCycle PwmId.p12) (pwnPaths_period PwmId.p12)
      (runPwmOps (freshPWM PwmId.p12) sysInit [PwmOp.setPeriod (-5)]).2.2.trace 0
      = false := by
  norm_num [runPwmOps, PWM.setPeriod, PWM.setPeriodRest, PWM.setDutyCycle, writeTextFile,
    freshPWM, sysInit, dutyBounded]

/-- Witness for C3: the run `setPeriod 2; setDutyCycle 1` keeps every duty
write bounded by the period in effect. -/
theorem claim_C3_witness :
    dutyBounded (pwnPaths_dutyCycle PwmId.p12) (pwnPaths_period PwmId.p12)
      (runPwmOps (freshPWM PwmId.p12) sysInit
        [PwmOp.setPeriod 2, PwmOp.setDutyCycle 1]).2.2.trace 0 = true :=
  claim_C3 PwmId.p12 [PwmOp.setPeriod 2, PwmOp.setDutyCycle 1] (by decide) (by decide)
